import Mathlib

/-!
Verification development for the Shoplinkify backend: a shallow embedding of
the per-platform import pipelines (YouTube, Instagram, Facebook, TikTok), the
image proxy, the post/click persistence layer and the public feed, together
with theorems settling the specification claims about them.

JavaScript string primitives (`includes`, `split`, `startsWith`, regex search
and replace) are modelled over `List Char`; network and database effects are
modelled by explicit oracle parameters of type `Except Unit _`.
-/

namespace Shoplinkify

/-- JS `a.startsWith(b)` over char lists. -/
def strStarts : List Char → List Char → Bool
  | _, [] => true
  | [], _ :: _ => false
  | c :: cs, d :: ds => c == d && strStarts cs ds

/-- Substring test: does `hay` contain `pat` as a contiguous substring? -/
def hasSub (hay pat : List Char) : Bool :=
  match hay with
  | [] => strStarts [] pat
  | _ :: rest => strStarts hay pat || hasSub rest pat

/-- JS `s.includes(sub)` on strings. -/
def jsIncludes (s sub : String) : Bool := hasSub s.toList sub.toList

/-- JS truthy-or on strings: `a || b` where the empty string is falsy. -/
def jsOr (a b : String) : String := if a == "" then b else a

/-- JS truthy-or for an optional string attribute: `attr || other`, where a
missing attribute and the empty string are both falsy. -/
def jsOrOpt (a : Option String) (b : Option String) : Option String :=
  match a with
  | some s => if s == "" then b else some s
  | none => b

/-- Consume a maximal run of decimal digits. -/
def eatDigitsRest : List Char → List Char
  | c :: cs => if c.isDigit then eatDigitsRest cs else c :: cs
  | [] => []

/-- Consume one or more decimal digits (regex `\d+`), returning the rest. -/
def eatDigits1 : List Char → Option (List Char)
  | c :: cs => if c.isDigit then some (eatDigitsRest cs) else none
  | [] => none

/-- Consume a maximal run of characters satisfying `p` (regex `[..]+`),
requiring at least one, returning the rest. -/
def eatClass1 (p : Char → Bool) : List Char → Option (List Char)
  | c :: cs => if p c then some (eatClassRest p cs) else none
  | [] => none
where
  eatClassRest (p : Char → Bool) : List Char → List Char
    | c :: cs => if p c then eatClassRest p cs else c :: cs
    | [] => []

/-- Take the maximal run of characters satisfying `p` (the matched text of a
greedy `[..]+` group). -/
def takeClass (p : Char → Bool) : List Char → List Char
  | c :: cs => if p c then c :: takeClass p cs else []
  | [] => []

/-- Replace the leftmost match of `m` by `repl` (JS non-global
`String.replace`): `m` consumes the matched span and returns the remainder. -/
def replaceFirstAux (m : List Char → Option (List Char)) (repl : List Char) :
    List Char → Option (List Char)
  | [] => none
  | c :: cs =>
    match m (c :: cs) with
    | some rest => some (repl ++ rest)
    | none => (replaceFirstAux m repl cs).map (fun r => c :: r)

/-- JS `s.replace(pattern, repl)` with a non-global pattern: the string is
unchanged when the pattern does not occur. -/
def replaceFirst (m : List Char → Option (List Char)) (repl : List Char)
    (s : List Char) : List Char :=
  (replaceFirstAux m repl s).getD s

/-- JS global `s.replace(/pat/g, repl)` for a literal nonempty pattern
`p :: ps`: replace every non-overlapping occurrence, left to right. The
`fuel` argument (number of remaining scan steps, every step consuming at
least the head character) keeps the recursion structural. -/
def replaceAllGo (p : Char) (ps repl : List Char) : Nat → List Char → List Char
  | _, [] => []
  | 0, l => l
  | fuel + 1, c :: cs =>
    if c == p && strStarts cs ps then repl ++ replaceAllGo p ps repl fuel (cs.drop ps.length)
    else c :: replaceAllGo p ps repl fuel cs

/-- Global replace with the fuel instantiated to the text length. -/
def replaceAllNE (p : Char) (ps repl : List Char) (l : List Char) : List Char :=
  replaceAllGo p ps repl l.length l

/-- First index (if any) at which the literal pattern occurs, with the text
from that point on. -/
def findSub (pat : List Char) : List Char → Option (List Char)
  | [] => if pat.isEmpty then some [] else none
  | c :: cs => if strStarts (c :: cs) pat then some (c :: cs) else findSub pat cs

/-- JS `s.split(sep)` for a literal nonempty separator: the list of chunks
between non-overlapping occurrences of `sep`, scanned left to right. The
`fuel` argument keeps the recursion structural. -/
def jsSplitGo (p : Char) (ps : List Char) : Nat → List Char → List Char → List (List Char)
  | _, [], acc => [acc.reverse]
  | 0, l, acc => [acc.reverse ++ l]
  | fuel + 1, c :: cs, acc =>
    if c == p && strStarts cs ps then
      acc.reverse :: jsSplitGo p ps fuel (cs.drop ps.length) []
    else
      jsSplitGo p ps fuel cs (c :: acc)

/-- JS `s.split(sep)` on strings (literal separator, assumed nonempty). -/
def jsSplit (s sep : String) : List String :=
  match sep.toList with
  | [] => [s]
  | p :: ps => (jsSplitGo p ps s.toList.length s.toList []).map (fun l => String.mk l)

/-- ASCII lowercase letter test (regex `[a-z]`). -/
def isLowerAZ (c : Char) : Bool := ('a' ≤ c) && (c ≤ 'z')

/-- ASCII uppercase letter test (regex `[A-Z]`). -/
def isUpperAZ (c : Char) : Bool := ('A' ≤ c) && (c ≤ 'Z')

/-- Regex class `[a-zA-Z0-9]`. -/
def isAlnum (c : Char) : Bool := isLowerAZ c || isUpperAZ c || c.isDigit

end Shoplinkify

namespace Shoplinkify

/-!
## YouTube video-id extraction (`src/routes/social.js`, `router.post("/youtube")`,
lines 297-341; the identical block also opens the `auth.js` variant)

The route body destructures `{ url }`, returns 400 when it is missing, pulls a
normalized URL out of an `<iframe>` embed when present, then dispatches on the
three recognized URL shapes; a missing or empty video id is a 400.
-/

/-- First `some` produced by `f` over a list, scanning left to right. -/
def firstSome {α β : Type} (l : List α) (f : α → Option β) : Option β :=
  match l with
  | [] => none
  | a :: rest =>
    match f a with
    | some b => some b
    | none => firstSome rest f

/-- Model of `new URLSearchParams(qs).get(key)` restricted to the
`application/x-www-form-urlencoded` splitting on `&` and `=` (percent- and
plus-decoding are not modelled; the claims use plain alphanumeric ids).
Returns the value of the first pair whose key matches, `none` otherwise. -/
def urlSearchParamsGet (qs : String) (key : String) : Option String :=
  firstSome (jsSplit qs "&") (fun seg =>
    if seg == "" then none
    else
      match jsSplit seg "=" with
      | [] => none
      | k :: rest => if k == key then some (String.intercalate "=" rest) else none)

/-- The iframe-src regex of the YouTube route,
`/src=["'](https?:\/\/www\.youtube\.com\/embed\/[^"'?&]+)["']/i`:
at some position, case-insensitively `src=`, a quote, `http` with optional
`s`, `://www.youtube.com/embed/`, one or more characters outside
`"'?&`, then a quote; the capture is the URL between the quotes. -/
def ytIframeSrcMatch (s : List Char) : Option String :=
  match s with
  | [] => none
  | _ :: rest =>
    match matchAt s with
    | some u => some u
    | none => ytIframeSrcMatch rest
where
  isQuote (c : Char) : Bool := c == '"' || c == Char.ofNat 39
  ciStarts (s : List Char) (pat : List Char) : Option (List Char) :=
    match s, pat with
    | rest, [] => some rest
    | [], _ :: _ => none
    | c :: cs, d :: ds => if c.toLower == d.toLower then ciStarts cs ds else none
  matchAt (s : List Char) : Option String := do
    let r1 ← ciStarts s ("src=".toList)
    match r1 with
    | q :: r2 =>
      if isQuote q then do
        let r3 ← ciStarts r2 ("http".toList)
        let r4 := match r3 with
          | c :: cs => if c.toLower == 's' then cs else r3
          | [] => r3
        let r5 ← ciStarts r4 ("://www.youtube.com/embed/".toList)
        let body := takeClass (fun c => !(isQuote c || c == '?' || c == '&')) r5
        if body.isEmpty then none
        else
          match r5.drop body.length with
          | q2 :: _ =>
            if isQuote q2 then
              some (String.mk ("http".toList ++
                (match r3 with
                 | c :: _ => if c.toLower == 's' then ['s'] else []
                 | [] => []) ++ "://www.youtube.com/embed/".toList ++ body))
            else none
          | [] => none
      else none
    | [] => none

/-- Lines 310-321: when the input contains `<iframe`, the URL captured from the
`src` attribute replaces the raw input as `normalizedUrl`. -/
def ytNormalizedUrl (url : String) : String :=
  if jsIncludes url "<iframe" then
    match ytIframeSrcMatch url.toList with
    | some u => u
    | none => url
  else url

/-- Lines 323-334: video-id extraction from the normalized URL.
`watch?v=` uses `URLSearchParams` over `url.split("?")[1]`; `youtu.be/` takes
the text after the first `youtu.be/` up to the first `?` or `&`;
`youtube.com/embed/` takes the text after it up to the first `?`, `&` or `/`. -/
def ytVideoIdOfNormalized (normalizedUrl : String) : Option String :=
  if jsIncludes normalizedUrl "youtube.com/watch?v=" then
    match (jsSplit normalizedUrl "?").get? 1 with
    | some qs => urlSearchParamsGet qs "v"
    | none => none
  else if jsIncludes normalizedUrl "youtu.be/" then
    match (jsSplit normalizedUrl "youtu.be/").get? 1 with
    | some tail => some (String.mk (takeClass (fun c => !(c == '?' || c == '&')) tail.toList))
    | none => none
  else if jsIncludes normalizedUrl "youtube.com/embed/" then
    match (jsSplit normalizedUrl "youtube.com/embed/").get? 1 with
    | some tail => some (String.mk (takeClass (fun c => !(c == '?' || c == '&' || c == '/')) tail.toList))
    | none => none
  else none

/-- Full extraction as the route performs it: embed normalization followed by
format dispatch. -/
def ytExtractVideoId (url : String) : Option String :=
  ytVideoIdOfNormalized (ytNormalizedUrl url)

/-- Lines 299-341 of the route up to the video-id validation: 400 when the
body has no `url`, 400 when no (nonempty) video id is extractable, otherwise
the extracted id. JS `if (!videoId)` treats both `null` and `""` as failure. -/
def ytRouteEarly (url? : Option String) : Except Nat String :=
  match url? with
  | none => .error 400
  | some url =>
    match ytExtractVideoId url with
    | none => .error 400
    | some vid => if vid == "" then .error 400 else .ok vid

end Shoplinkify

namespace Shoplinkify

/-!
## Instagram import (`src/routes/social.js`, `router.post("/instagram")`,
lines 443-1327)

The route normalizes the submitted URL / embed code (lines 445-545), fetches
the page, runs the extraction cascade (meta tags, `window._sharedData` JSON,
raw regex fallbacks; lines 578-1004), cleans the selected URL (1006-1038),
re-checks it against profile-image patterns with an emergency `<img>` scan
(1040-1124), and persists via `Post.create` with `url: postUrl` (1281-1289).

The fetched page is modelled as a record whose fields hold the results of the
individual cheerio selectors and page-text regexes the route evaluates.
-/

/-- Expect a single literal character. -/
def expectChar (c : Char) : List Char → Option (List Char)
  | d :: rest => if d == c then some rest else none
  | [] => none

/-- Expect a literal string. -/
def expectStr (pat : String) (s : List Char) : Option (List Char) :=
  if strStarts s pat.toList then some (s.drop pat.toList.length) else none

/-- Normalize a possibly empty / missing JS string attribute to its truthy
value: `some s` with `s ≠ ""`, else `none`. -/
def jsTruthyOpt (o : Option String) : Option String := jsOrOpt o none

/-- Path-segment wrapper: leading `/`, the inner pattern, trailing `/`; the
trailing slash is part of the matched span. -/
def pathSeg (inner : List Char → Option (List Char)) (s : List Char) :
    Option (List Char) :=
  match s with
  | '/' :: rest =>
    match inner rest with
    | some ('/' :: r) => some r
    | _ => none
  | _ => none

/-- Inner pattern of `/\/s\d+x\d+\//`. -/
def igSegS (s : List Char) : Option (List Char) := do
  let r ← expectChar 's' s
  let r ← eatDigits1 r
  let r ← expectChar 'x' r
  eatDigits1 r

/-- Inner pattern of `/\/c\d+\.\d+\.\d+\.\d+\//`. -/
def igSegC (s : List Char) : Option (List Char) := do
  let r ← expectChar 'c' s
  let r ← eatDigits1 r
  let r ← expectChar '.' r
  let r ← eatDigits1 r
  let r ← expectChar '.' r
  let r ← eatDigits1 r
  let r ← expectChar '.' r
  eatDigits1 r

/-- Inner pattern of `/\/e\d+\//`. -/
def igSegE (s : List Char) : Option (List Char) := do
  let r ← expectChar 'e' s
  eatDigits1 r

/-- Inner pattern of `/\/[a-z]\d+x\d+\//`. -/
def igSegLetter (s : List Char) : Option (List Char) :=
  match s with
  | c :: rest =>
    if isLowerAZ c then do
      let r ← eatDigits1 rest
      let r ← expectChar 'x' r
      eatDigits1 r
    else none
  | [] => none

/-- Inner pattern of `/\/(vp|p|s)[0-9]+x[0-9]+(_[0-9]+)?\//`; the alternation
is tried in source order and the optional `_[0-9]+` group binds greedily. -/
def igSegVp (s : List Char) : Option (List Char) := do
  let r ←
    match expectStr "vp" s with
    | some x => some x
    | none =>
      match expectChar 'p' s with
      | some x => some x
      | none => expectChar 's' s
  let r ← eatDigits1 r
  let r ← expectChar 'x' r
  let r ← eatDigits1 r
  match r with
  | '_' :: r2 => eatDigits1 r2
  | _ => some r

/-- Inner pattern of `/\/p[0-9]+x[0-9]+\//`. -/
def igSegP (s : List Char) : Option (List Char) := do
  let r ← expectChar 'p' s
  let r ← eatDigits1 r
  let r ← expectChar 'x' r
  eatDigits1 r

/-- Query-parameter pattern `/[\?&]key=\d+/`. -/
def igQueryParam (key : String) (s : List Char) : Option (List Char) :=
  match s with
  | c :: rest =>
    if c == '?' || c == '&' then do
      let r ← expectStr (key ++ "=") rest
      eatDigits1 r
    else none
  | [] => none

/-- Truncating pattern `/\?tag.*$/`: when the literal occurs, everything from
its start to the end of the string is the match. -/
def igTrunc (tag : String) (s : List Char) : Option (List Char) :=
  if strStarts s tag.toList then some [] else none

/-- Remove every backslash (JS `.replace(/\\/g, "")`). -/
def stripBackslashes (s : String) : String :=
  String.mk (replaceAllNE '\\' [] [] s.toList)

/-- URL cleanup of the Instagram route, lines 1014-1034 (the same chain also
appears in the Facebook route, lines 1615-1629): fourteen first-occurrence
regex substitutions followed by the three global unescapes. -/
def igCleanUrl (s : String) : String :=
  let l := s.toList
  let l := replaceFirst (pathSeg igSegS) "/".toList l
  let l := replaceFirst (pathSeg igSegC) "/".toList l
  let l := replaceFirst (pathSeg igSegE) "/".toList l
  let l := replaceFirst (pathSeg igSegLetter) "/".toList l
  let l := replaceFirst (pathSeg igSegVp) "/".toList l
  let l := replaceFirst (pathSeg igSegP) "/".toList l
  let l := replaceFirst (igQueryParam "se") [] l
  let l := replaceFirst (igQueryParam "sh") [] l
  let l := replaceFirst (igQueryParam "sw") [] l
  let l := replaceFirst (igQueryParam "quality") [] l
  let l := replaceFirst (igTrunc "?_nc_ht") [] l
  let l := replaceFirst (igTrunc "?_nc_cat") [] l
  let l := replaceFirst (igTrunc "?igshid") [] l
  let l := replaceFirst (igTrunc "?_nc_") [] l
  let l := replaceAllNE '\\' "u0026".toList "&".toList l
  let l := replaceAllNE '\\' "u003D".toList "=".toList l
  String.mk (replaceAllNE '\\' [] [] l)

/-- Protocol-relative fix, lines 1006-1009. -/
def protocolFix (u : String) : String :=
  if strStarts u.toList "//".toList then "https:" ++ u else u

/-- One entry of a `display_resources` array in the embedded JSON. -/
structure DisplayResource where
  src : String
  config_width : Nat
  config_height : Nat
deriving Repr, DecidableEq

/-- The media node the route reads (`shortcode_media`, or a timeline node). -/
structure PostMedia where
  display_resources : List DisplayResource := []
  display_url : Option String := none
deriving Repr, DecidableEq

/-- `entry_data.ProfilePage[0].graphql.user` as far as the route reads it. -/
structure ProfileUser where
  edges : List PostMedia := []
deriving Repr, DecidableEq

/-- Parsed `window._sharedData` as far as the route navigates it. -/
structure SharedData where
  postPage : Option PostMedia := none
  profilePage : Option ProfileUser := none
deriving Repr, DecidableEq

/-- An `<img>` element as the final-check scan reads it: `src` attribute and
`parseInt(attr || "0")` of the `width`/`height` attributes. -/
structure ImgTag where
  src : Option String := none
  width : Nat := 0
  height : Nat := 0
deriving Repr, DecidableEq

/-- A candidate declared in an `srcset` attribute (URL and declared width).
The social.js Instagram route never reads `srcset`; the field below exists so
that pages carrying such candidates can be expressed. -/
structure SrcsetCandidate where
  url : String
  width : Nat
deriving Repr, DecidableEq

/-- The fetched Instagram page, as the selectors and page-text regexes of the
route observe it. Meta-tag fields are the `content` of the corresponding
`meta[property=..]`/`meta[name=..]` lookup; the four regex fields are the
first capture group of the corresponding fallback regex over the page text
(lines 936-941); `imgs` are the page's `<img>` elements in document order. -/
structure InstaPage where
  ogImageUrl : Option String := none
  ogImageSecure : Option String := none
  twitterImage : Option String := none
  ogImage : Option String := none
  articleImage : Option String := none
  twitterImageSrc : Option String := none
  imageTag : Option String := none
  thumbnailTag : Option String := none
  instagramImage : Option String := none
  sharedData : Option SharedData := none
  displayUrlMatch : Option String := none
  displaySrcMatch : Option String := none
  ogImageJsonMatch : Option String := none
  ffvadMatch : Option String := none
  imgs : List ImgTag := []
  srcsetCands : List SrcsetCandidate := []
  jsonLdImage : Option String := none
deriving Repr, DecidableEq

/-- Profile-picture URL test of the meta stage, lines 655-659 (also 725-730):
`/profile_pic/`, `profile_images`, `/dp/`, or `s150x150` on an
`instagram.com` URL. -/
def isLikelyProfilePic (u : String) : Bool :=
  jsIncludes u "/profile_pic/" || jsIncludes u "profile_images" ||
    jsIncludes u "/dp/" || (jsIncludes u "instagram.com" && jsIncludes u "s150x150")

/-- Initial meta-tag selection, lines 647-651:
`og:image:url || og:image:secure_url || twitter:image || og:image`. -/
def igMetaInitial (p : InstaPage) : Option String :=
  jsOrOpt p.ogImageUrl (jsOrOpt p.ogImageSecure (jsOrOpt p.twitterImage p.ogImage))

/-- The alternative content tags consulted when the initial pick looks like a
profile picture, lines 704-711, in source order; each lookup is
`property` content `||` `name` content, modelled as one field. -/
def igAltTagList (p : InstaPage) : List (String × Option String) :=
  [("article:image", p.articleImage),
   ("og:image:url", p.ogImageUrl),
   ("twitter:image:src", p.twitterImageSrc),
   ("image", p.imageTag),
   ("thumbnail", p.thumbnailTag),
   ("instagram:image", p.instagramImage)]

/-- Extraction-method tag for an alternative meta tag, line 740:
`"meta_tag_" + tag.replace(":", "_")` (JS replaces the first colon only). -/
def igAltMethod (tag : String) : String :=
  "meta_tag_" ++ String.mk (replaceFirst (expectChar ':') "_".toList tag.toList)

/-- The alternative-tag search loop, lines 714-749: first truthy tag content
that does not look like a profile picture. -/
def igFindAltTag (p : InstaPage) : Option (String × String) :=
  firstSome (igAltTagList p) (fun tc =>
    match jsTruthyOpt tc.2 with
    | none => none
    | some c => if isLikelyProfilePic c then none else some (c, igAltMethod tc.1))

/-- Strategy 1 (meta tags), lines 647-762: the initial pick is kept when it is
not profile-like; a profile-like pick is replaced by the first non-profile
alternative tag, and reinstated (method `og_image_profile`) when none exists. -/
def igStage1 (p : InstaPage) : Option (String × String) :=
  match igMetaInitial p with
  | none => none
  | some u =>
    if isLikelyProfilePic u then
      match igFindAltTag p with
      | some r => some r
      | none => some (u, "og_image_profile")
    else some (u, "og_image")

/-- Media-node navigation, lines 800-858: `PostPage[0].graphql.shortcode_media`
first, else the first `edge_owner_to_timeline_media` edge of a `ProfilePage`. -/
def igPostMedia (p : InstaPage) : Option PostMedia :=
  match p.sharedData with
  | none => none
  | some sd =>
    match sd.postPage with
    | some pm => some pm
    | none =>
      match sd.profilePage with
      | some u => u.edges.head?
      | none => none

/-- First maximum of `size` over a list (the head of a stable descending
sort, as produced by `Array.prototype.sort` with a `b - a` comparator). -/
def pickFirstMax {α : Type} (size : α → Nat) : List α → Option α
  | [] => none
  | a :: rest => some (rest.foldl (fun best x => if size x > size best then x else best) a)

/-- Strategy 2 (embedded `window._sharedData` JSON), lines 767-930: the
largest `display_resources` entry by `config_width * config_height`, else
`display_url`. -/
def igStage2 (p : InstaPage) : Option (String × String) :=
  match igPostMedia p with
  | none => none
  | some pm =>
    match pickFirstMax (fun r => r.config_width * r.config_height) pm.display_resources with
    | some r => some (r.src, "json_display_resources")
    | none =>
      match jsTruthyOpt pm.display_url with
      | some u => some (u, "json_display_url")
      | none => none

/-- Profile test of the regex fallback, lines 955-958 (no `s150x150` clause). -/
def igRegexProfile (u : String) : Bool :=
  jsIncludes u "/profile_pic/" || jsIncludes u "profile_images" || jsIncludes u "/dp/"

/-- Strategy 3 (raw regex fallbacks), lines 933-988: the four regexes in
source order (`display_url`, `display_src`, `og:image`, `FFVAD` img); a match
is backslash-stripped and skipped when it looks like a profile picture. -/
def igStage3 (p : InstaPage) : Option (String × String) :=
  firstSome [p.displayUrlMatch, p.displaySrcMatch, p.ogImageJsonMatch, p.ffvadMatch]
    (fun m? =>
      match jsTruthyOpt m? with
      | none => none
      | some m =>
        let potentialUrl := stripBackslashes m
        if igRegexProfile potentialUrl then none
        else some (potentialUrl, "display_url_regex"))

/-- The extraction cascade of the route, lines 578-1004: strategy 1, then —
only while `imageUrl` is still null — strategies 2 and 3; `none` is the
404 branch of lines 993-1004. -/
def igExtractCandidate (p : InstaPage) : Option (String × String) :=
  match igStage1 p with
  | some r => some r
  | none =>
    match igStage2 p with
    | some r => some r
    | none => igStage3 p

/-- Final-check profile patterns, lines 1042-1053. -/
def finalProfileImagePatterns : List String :=
  ["/profile_pic/", "profile_images", "/profpic/", "/pp/", "/dp/",
   "s150x150", "/profile/", "/profil/", "avatar", ".com/p/profile"]

/-- Candidate pool of the emergency `<img>` scan, lines 1069-1095: sources
that match no profile pattern and live on `cdninstagram`/`fbcdn.net`,
sized `width * height`. -/
structure IgCandidate where
  src : String
  size : Nat
deriving Repr, DecidableEq

/-- Emergency-scan candidates, in document order. -/
def igEmergencyCandidates (p : InstaPage) : List IgCandidate :=
  p.imgs.filterMap (fun img =>
    match img.src with
    | none => none
    | some src =>
      if finalProfileImagePatterns.any (fun pat => jsIncludes src pat) then none
      else if jsIncludes src "cdninstagram" || jsIncludes src "fbcdn.net" then
        some { src := src, size := img.width * img.height }
      else none)

/-- Final profile-image check, lines 1040-1124: when the cleaned URL matches
any profile pattern and the emergency scan finds candidates, the largest
candidate replaces it (method `emergency_fallback`); with no candidates the
URL is kept unchanged. -/
def igFinalCheck (p : InstaPage) (url method : String) : String × String :=
  if finalProfileImagePatterns.any (fun pat => jsIncludes url pat) then
    match pickFirstMax (fun c => c.size) (igEmergencyCandidates p) with
    | some best => (best.src, "emergency_fallback")
    | none => (url, method)
  else (url, method)

/-- The complete image selection of the Instagram route (candidate cascade,
protocol fix, URL cleanup, final profile check); `none` is the 404 response
`"Could not find image for the Instagram post"`. -/
def instagramExtract (p : InstaPage) : Option (String × String) :=
  match igExtractCandidate p with
  | none => none
  | some (u, m) => some (igFinalCheck p (igCleanUrl (protocolFix u)) m)

/-- Modelled from the spec: the claimed strategy "(3) the largest-by-declared-
width `srcset` candidate". No code in the social.js Instagram route reads
`srcset` attributes; this definition expresses what the spec describes so the
two can be compared. -/
def specSrcsetStrategy (p : InstaPage) : Option String :=
  (pickFirstMax (fun c => c.width) p.srcsetCands).map (fun c => c.url)

/-- Modelled from the spec: the claimed strategy "(4) the JSON-LD `image`
field". No code in the social.js Instagram route reads JSON-LD scripts; this
definition expresses what the spec describes so the two can be compared. -/
def specJsonLdStrategy (p : InstaPage) : Option String := p.jsonLdImage

end Shoplinkify

namespace Shoplinkify

/-!
## Instagram URL normalization and post persistence
(`src/routes/social.js`, lines 445-545 and 1275-1289; the Post schema with
its unique `(user, url)` index is `models/Post.js`.)
-/

/-- The embed-code URL regex `/https:\/\/www\.instagram\.com\/p\/[^\/'"]+/`
(lines 468-470 and 492-494): the first occurrence of the literal prefix
followed by at least one character outside `/`, `'`, `"`; the whole match is
returned. -/
def igEmbedMatch : List Char → Option String
  | [] => none
  | c :: cs =>
    if strStarts (c :: cs) "https://www.instagram.com/p/".toList then
      let rest := (c :: cs).drop "https://www.instagram.com/p/".toList.length
      let run := takeClass (fun ch => !(ch == '/' || ch == '"' || ch == Char.ofNat 39)) rest
      if run.isEmpty then igEmbedMatch cs
      else some (String.mk ("https://www.instagram.com/p/".toList ++ run))
    else igEmbedMatch cs

/-- The shortcode regex `/\/(p|reel|tv)\/([^\/\?]+)/` (line 511): capture
group 2 of the first match. -/
def igShortcodeMatch : List Char → Option String
  | [] => none
  | c :: cs =>
    match igShortcodeHere (c :: cs) with
    | some sc => some sc
    | none => igShortcodeMatch cs
where
  igShortcodeHere (s : List Char) : Option String := do
    let r ← expectChar '/' s
    let r2 ←
      match (do let a ← expectChar 'p' r; expectChar '/' a : Option (List Char)) with
      | some x => some x
      | none =>
        match (do let a ← expectStr "reel" r; expectChar '/' a : Option (List Char)) with
        | some x => some x
        | none => do
          let a ← expectStr "tv" r
          expectChar '/' a
    let run := takeClass (fun ch => !(ch == '/' || ch == '?')) r2
    if run.isEmpty then none else some (String.mk run)

/-- Validation regex of line 536,
`/^https?:\/\/(www\.)?instagram\.com\/(p|reel|tv)\/[a-zA-Z0-9_-]+/`
(anchored prefix test). -/
def igUrlValid (u : String) : Bool :=
  (igUrlValidGo u.toList).isSome
where
  igUrlValidGo (s : List Char) : Option (List Char) := do
    let r ← expectStr "http" s
    let r := match r with
      | 's' :: t => t
      | _ => r
    let r ← expectStr "://" r
    let r := match expectStr "www." r with
      | some t => t
      | none => r
    let r ← expectStr "instagram.com/" r
    let r2 ←
      match expectStr "p/" r with
      | some x => some x
      | none =>
        match expectStr "reel/" r with
        | some x => some x
        | none => expectStr "tv/" r
    let run := takeClass (fun ch => isAlnum ch || ch == '_' || ch == '-') r2
    if run.isEmpty then none else some (r2.drop run.length)

/-- Result of the normalization block, lines 445-533. -/
structure IgNormalized where
  processedUrl : String
  originalEmbedCode : Option String
  isEmbedUrl : Bool
deriving Repr, DecidableEq

/-- URL normalization of the Instagram route, lines 445-533: embed-code
detection, URL extraction out of embed markup, canonicalization to
`https://www.instagram.com/p/<shortcode>/` via the shortcode regex, and
`/embed/` stripping. -/
def igNormalize (postUrl : String) (embedCode : Option String) : IgNormalized :=
  let isEmbedCode := jsIncludes postUrl "<blockquote" && jsIncludes postUrl "instagram-media"
  let firstPass :=
    if isEmbedCode then
      match igEmbedMatch postUrl.toList with
      | some u => (u, some postUrl)
      | none => (postUrl, some postUrl)
    else
      match embedCode with
      | some ec =>
        if jsIncludes ec "<blockquote" && jsIncludes ec "instagram-media" then
          if !jsIncludes postUrl "instagram.com" then
            match igEmbedMatch ec.toList with
            | some u => (u, some ec)
            | none => (postUrl, some ec)
          else (postUrl, some ec)
        else (postUrl, jsTruthyOpt embedCode)
      | none => (postUrl, none)
  let processedUrl := firstPass.1
  let isEmbedUrl := jsIncludes processedUrl "/embed" && jsIncludes processedUrl "instagram.com"
  let processedUrl2 :=
    if !isEmbedUrl && jsIncludes processedUrl "instagram.com" then
      match igShortcodeMatch processedUrl.toList with
      | some sc => "https://www.instagram.com/p/" ++ sc ++ "/"
      | none => processedUrl
    else if isEmbedUrl then
      String.mk (replaceFirst (expectStr "/embed/") "/".toList processedUrl.toList)
    else processedUrl
  { processedUrl := processedUrl2, originalEmbedCode := firstPass.2, isEmbedUrl := isEmbedUrl }

/-- The canonical (deduplication-key) form of a submitted Instagram URL in
the sense of the spec: the normalized `processedUrl`. -/
def igCanonicalUrl (rawUrl : String) (embedCode : Option String) : String :=
  (igNormalize rawUrl embedCode).processedUrl

/-- Argument record of a `Post.create(...)` call: exactly the fields the call
site passes are set, every omitted field stays `none`. -/
structure PostCreateArgs where
  user : Nat
  platform : String
  url : String
  title : Option String := none
  description : Option String := none
  productLink : Option String := none
  selected : Option Bool := none
  videoId : Option String := none
  embedCode : Option String := none
  thumbnailUrl : Option String := none
  channelName : Option String := none
  channelImage : Option String := none
  caption : Option String := none
  username : Option String := none
  userImage : Option String := none
  videoPath : Option String := none
  imageUrl : Option String := none
deriving Repr, DecidableEq

/-- A persisted Post document after the mongoose schema defaults
(`models/Post.js`): `title`/`description`/`productLink` default to `""`,
`selected` to `true`, `addedAt` to the creation time. -/
structure PostDoc where
  user : Nat
  platform : String
  url : String
  title : String
  description : String
  productLink : String
  selected : Bool
  addedAt : Nat
  videoId : Option String
  embedCode : Option String
  thumbnailUrl : Option String
  channelName : Option String
  channelImage : Option String
  caption : Option String
  username : Option String
  userImage : Option String
  videoPath : Option String
  imageUrl : Option String
deriving Repr, DecidableEq

/-- Apply the schema defaults of `models/Post.js` to a create call. -/
def applyPostDefaults (a : PostCreateArgs) (now : Nat) : PostDoc :=
  { user := a.user, platform := a.platform, url := a.url,
    title := a.title.getD "", description := a.description.getD "",
    productLink := a.productLink.getD "", selected := a.selected.getD true,
    addedAt := now, videoId := a.videoId, embedCode := a.embedCode,
    thumbnailUrl := a.thumbnailUrl, channelName := a.channelName,
    channelImage := a.channelImage, caption := a.caption,
    username := a.username, userImage := a.userImage,
    videoPath := a.videoPath, imageUrl := a.imageUrl }

/-- `Post.create` against the unique compound index
`postSchema.index({ user: 1, url: 1 }, { unique: true })` (`models/Post.js`,
lines 62-63): a document whose `(user, url)` pair already exists is rejected
with a duplicate-key error and the store is unchanged. -/
def insertPost (store : List PostDoc) (a : PostCreateArgs) (now : Nat) :
    Except Unit (List PostDoc) :=
  if store.any (fun p => p.user == a.user && p.url == a.url) then .error ()
  else .ok (store ++ [applyPostDefaults a now])

/-- The `Post.create` argument record of the Instagram route, lines 1281-1289:
note `url: postUrl` — the raw request-body URL, not the normalized
`processedUrl`. -/
def igCreateArgs (userId : Nat) (postUrl : String) (imageUrl : String)
    (originalEmbedCode : Option String) : PostCreateArgs :=
  { user := userId, platform := "instagram", url := postUrl,
    imageUrl := some imageUrl, embedCode := originalEmbedCode,
    title := some "", description := some "" }

end Shoplinkify

namespace Shoplinkify

/-!
## Facebook import (`src/routes/social.js`, `router.post("/facebook")`,
lines 1407-1806)

URL validation (1419-1429), page fetch, extraction cascade (1480-1599), the
404 branch when no strategy finds an image (1601-1606), URL cleanup
(1608-1629), the CDN download/upload ladder (1631-1745), the main
`Post.create` (1748-1755), and the catch-all fallback-logo branch
(1767-1798) that runs only when the inner `try` block throws.
-/

/-- The static Facebook logo used as fallback image (lines 1712 and 1769). -/
def FB_LOGO : String := "https://static.xx.fbcdn.net/rsrc.php/v3/y4/r/-PAXP-deijE.gif"

/-- Validation regex of the Facebook route (line 1420), an anchored prefix
test of four alternatives: `<name>/posts/`, `<name>/photos/`,
`share/[pv]/<slug>`, `<name>/videos/<digits>`, each after
`https?://(www.)?(facebook|fb).com/`. The page-name class `[a-zA-Z0-9.]+`
excludes `/`, so its greedy run ends exactly at the first slash and no
regex backtracking can produce another split. -/
def fbUrlValid (u : String) : Bool :=
  match fbSchemeHost u.toList with
  | none => false
  | some r =>
    let nameCls := fun c => isAlnum c || c == '.'
    let slugCls := fun c => isAlnum c || c == '_' || c == '-'
    let nameThen := fun (lit : String) =>
      let run := takeClass nameCls r
      if run.isEmpty then false else (expectStr lit (r.drop run.length)).isSome
    let branch3 :=
      match (do
        let r2 ← expectStr "share/" r
        let r3 ←
          match expectChar 'p' r2 with
          | some x => some x
          | none => expectChar 'v' r2
        expectChar '/' r3 : Option (List Char)) with
      | some r4 => !(takeClass slugCls r4).isEmpty
      | none => false
    let branch4 :=
      let run := takeClass nameCls r
      if run.isEmpty then false
      else
        match expectStr "/videos/" (r.drop run.length) with
        | some r2 => !(takeClass Char.isDigit r2).isEmpty
        | none => false
    nameThen "/posts/" || nameThen "/photos/" || branch3 || branch4
where
  fbSchemeHost (s : List Char) : Option (List Char) := do
    let r ← expectStr "http" s
    let r := match r with
      | 's' :: t => t
      | _ => r
    let r ← expectStr "://" r
    let r := match expectStr "www." r with
      | some t => t
      | none => r
    match (do let a ← expectStr "facebook" r; expectStr ".com/" a : Option (List Char)) with
    | some x => some x
    | none => do
      let a ← expectStr "fb" r
      expectStr ".com/" a

/-- The `image` value of one JSON-LD script as the route inspects it. -/
inductive JsonLdImage where
  | arr (l : List String)
  | str (s : String)
  | other
deriving Repr, DecidableEq

/-- One `script[type="application/ld+json"]` element: whether `JSON.parse`
succeeded, and its `image` field (`none` models an absent or falsy field,
which fails the `if (jsonLd.image)` guard). -/
structure JsonLdScript where
  parsed : Bool
  image : Option JsonLdImage
deriving Repr, DecidableEq

/-- The fetched Facebook page as the route's selectors and regexes see it:
`og:image`/`og:title`/`og:description` meta contents, `<img>` `src`
attributes in order, `<video>` `poster` attributes, the `background-image`
capture of each `[data-video-id]` element's `style`, the JSON-LD scripts,
and the matches of the global `fbcdn` CDN regex over the page text. -/
structure FbPage where
  ogImage : Option String := none
  ogTitle : Option String := none
  ogDescription : Option String := none
  imgs : List (Option String) := []
  videoPosters : List (Option String) := []
  videoBgMatches : List (Option String) := []
  jsonLds : List JsonLdScript := []
  fbcdnMatches : List String := []
deriving Repr, DecidableEq

/-- JSON-LD accumulation, lines 1550-1570: every script is visited; a parsed
script with a nonempty `image` array contributes its first entry, a string
`image` contributes itself; later scripts overwrite earlier results. -/
def fbJsonLdFold (scripts : List JsonLdScript) : Option String :=
  scripts.foldl
    (fun acc sc =>
      if sc.parsed then
        match sc.image with
        | some (.arr (h :: _)) => some h
        | some (.str s) => if s == "" then acc else some s
        | _ => acc
      else acc)
    none

/-- The Facebook extraction cascade, lines 1480-1599: (A) `og:image` (with a
video-specific method tag for `share/v/` URLs), (B) the first `<img>` whose
`src` hits a Facebook CDN pattern, (C) for video-share URLs only, `<video>`
posters then `[data-video-id]` background images, (D) JSON-LD, (E) the
global `fbcdn.net` regex scan preferring non-`profile`, non-`_s.`,
non-`emoji` matches. `none` is the 404 of lines 1601-1606. -/
def fbCascade (isVideoShare : Bool) (pg : FbPage) : Option (String × String) :=
  match jsTruthyOpt pg.ogImage with
  | some u => some (u, if isVideoShare then "og_image_video" else "og_image")
  | none =>
    match firstSome pg.imgs (fun src? =>
      match jsTruthyOpt src? with
      | some src =>
        if jsIncludes src "scontent" || jsIncludes src "fbcdn" ||
            jsIncludes src "facebook.com/images" then
          some (src, "html_content")
        else none
      | none => none) with
    | some r => some r
    | none =>
      match (if isVideoShare then
        match firstSome pg.videoPosters (fun po =>
          (jsTruthyOpt po).map (fun u => (u, "video_poster"))) with
        | some r => some r
        | none =>
          firstSome pg.videoBgMatches (fun bg =>
            (jsTruthyOpt bg).map (fun u => (u, "video_container_bg")))
      else none) with
      | some r => some r
      | none =>
        match fbJsonLdFold pg.jsonLds with
        | some u => some (u, "json_ld")
        | none =>
          match pg.fbcdnMatches with
          | [] => none
          | m0 :: _ =>
            match pg.fbcdnMatches.find? (fun m =>
              !jsIncludes m "profile" && !jsIncludes m "_s." && !jsIncludes m "emoji") with
            | some m => some (m, "fbcdn_regex_match")
            | none => some (m0, "fbcdn_regex_first_match")

/-- The download/upload ladder of lines 1631-1745: `download` yields the
byte length of fetching an image URL, `upload` the Cloudinary URL for the
downloaded buffer. CDN images below 1001 bytes raise, falling to the video
retry (`share/v/` only, ending at the static logo) or, for non-video CDN
URLs, to the original URL; non-CDN uploads fall back to the original URL. -/
def fbRehost (isVideoShare : Bool) (pg : FbPage) (imageUrl : String)
    (download : String → Except Unit Nat)
    (upload : String → Except Unit String) : String :=
  let isCDN := jsIncludes imageUrl "scontent" || jsIncludes imageUrl "fbcdn" ||
    jsIncludes imageUrl "facebook.com"
  if isCDN then
    match (do
      let len ← download imageUrl
      if len > 1000 then upload imageUrl else .error () : Except Unit String) with
    | .ok cu => cu
    | .error _ =>
      if isVideoShare then
        match (do
          match jsTruthyOpt pg.ogImage with
          | some vu => do
            let len ← download vu
            if len > 1000 then upload vu else .error ()
          | none => .error () : Except Unit String) with
        | .ok cu => cu
        | .error _ => FB_LOGO
      else imageUrl
  else
    match (do
      let _ ← download imageUrl
      upload imageUrl : Except Unit String) with
    | .ok cu => cu
    | .error _ => imageUrl

/-- The main `Post.create` arguments of the Facebook route, lines 1748-1755. -/
def fbMainCreateArgs (userId : Nat) (postUrl finalImageUrl : String)
    (pg : FbPage) : PostCreateArgs :=
  { user := userId, platform := "facebook", url := postUrl,
    imageUrl := some finalImageUrl,
    title := some ((jsTruthyOpt pg.ogTitle).getD ""),
    description := some ((jsTruthyOpt pg.ogDescription).getD "") }

/-- The fallback `Post.create` arguments, lines 1773-1780. -/
def fbFallbackCreateArgs (userId : Nat) (postUrl : String) : PostCreateArgs :=
  { user := userId, platform := "facebook", url := postUrl,
    imageUrl := some FB_LOGO, title := some "", description := some "" }

/-- Shape of a Facebook import response as far as the claims inspect it. -/
structure FbResponse where
  status : Nat
  imageUrl : Option String := none
  extractionMethod : Option String := none
  created : Option PostCreateArgs := none
deriving Repr, DecidableEq

/-- The inner `try` block, lines 1434-1766: a fetch failure or a throwing
`Post.create` escapes to the outer catch (`Except.error`); a successful
fetch whose cascade finds nothing returns the 404 response directly. -/
def fbInner (userId : Nat) (postUrl : String) (isVideoShare : Bool)
    (fetch : Except Unit FbPage)
    (download : String → Except Unit Nat)
    (upload : String → Except Unit String)
    (store : List PostDoc) (now : Nat) :
    Except Unit (FbResponse × List PostDoc) :=
  match fetch with
  | .error _ => .error ()
  | .ok pg =>
    match fbCascade isVideoShare pg with
    | none => .ok ({ status := 404 }, store)
    | some (u0, m) =>
      let u := igCleanUrl (protocolFix u0)
      let cloud := fbRehost isVideoShare pg u download upload
      let args := fbMainCreateArgs userId postUrl (jsOr cloud u) pg
      match insertPost store args now with
      | .ok st2 =>
        .ok ({ status := 200, imageUrl := some (jsOr cloud u),
               extractionMethod := some m, created := some args }, st2)
      | .error _ => .error ()

/-- The Facebook import route, lines 1407-1806: validation, the inner try,
and the catch that persists the fallback-logo post (500 when even that
`Post.create` fails). -/
def facebookRoute (userId : Nat) (url? : Option String)
    (fetch : Except Unit FbPage)
    (download : String → Except Unit Nat)
    (upload : String → Except Unit String)
    (store : List PostDoc) (now : Nat) : FbResponse × List PostDoc :=
  match url? with
  | none => ({ status := 400 }, store)
  | some postUrl =>
    if !fbUrlValid postUrl then ({ status := 400 }, store)
    else
      let isVideoShare := jsIncludes postUrl "/share/v/"
      match fbInner userId postUrl isVideoShare fetch download upload store now with
      | .ok r => r
      | .error _ =>
        let args := fbFallbackCreateArgs userId postUrl
        match insertPost store args now with
        | .ok st2 =>
          ({ status := 200, imageUrl := some FB_LOGO,
             extractionMethod := some "fallback_logo", created := some args }, st2)
        | .error _ => ({ status := 500 }, store)

end Shoplinkify

namespace Shoplinkify

/-!
## TikTok import (`src/routes/auth.js`, `router.post("/tiktok")`,
lines 1134-1398)

Validation (1138-1153), the TikWm primary path (1155-1281), the Open Graph
fallback (1286-1360), and the fallback-logo terminal path (1368-1388) whose
`Post.create` sits outside any inner `try`, so its failure reaches the outer
catch and becomes a 500 (1390-1397).
-/

/-- The static TikTok logo used as fallback thumbnail (lines 1369-1370). -/
def TIKTOK_LOGO : String :=
  "https://sf16-sg.tiktokcdn.com/obj/eden-sg/uvkuhyieh7lpqegw/tiktok_logo.png"

/-- `response.data.data` of the TikWm API as the route reads it. -/
structure TikwmData where
  origin_cover : Option String := none
  title : Option String := none
  id : Option String := none
  author_unique_id : Option String := none
  author_avatar : Option String := none
  wmplay : Option String := none
deriving Repr, DecidableEq

/-- The TikTok page fetched by the Open Graph fallback. -/
structure TtPage where
  ogImage : Option String := none
  ogDescription : Option String := none
deriving Repr, DecidableEq

/-- Shape of a TikTok import response as far as the claims inspect it. -/
structure TtResponse where
  status : Nat
  thumbnailUrl : Option String := none
  extractionMethod : Option String := none
  created : Option PostCreateArgs := none
deriving Repr, DecidableEq

/-- Thumbnail rehosting of lines 1191-1218 (and 1306-1334): the Cloudinary
upload result, or the original URL when download/upload throws, or `""` when
there is no thumbnail to upload. -/
def ttRehost (thumbnailUrl : String) (upload : String → Except Unit String) : String :=
  if thumbnailUrl == "" then ""
  else
    match upload thumbnailUrl with
    | .ok cu => cu
    | .error _ => thumbnailUrl

/-- The TikWm-path `Post.create` arguments, lines 1251-1263. -/
def ttTikwmCreateArgs (userId : Nat) (videoUrl : String) (d : TikwmData)
    (cloudThumb cloudUser : String) : PostCreateArgs :=
  let thumbnailUrl := d.origin_cover.getD ""
  let caption := d.title.getD ""
  { user := userId, platform := "tiktok", url := videoUrl,
    thumbnailUrl := some (jsOr cloudThumb thumbnailUrl),
    caption := some caption, videoId := some (d.id.getD ""),
    username := some (d.author_unique_id.getD ""),
    userImage := some (jsOr cloudUser (d.author_avatar.getD "")),
    videoPath := some (d.wmplay.getD ""),
    title := some (jsOr caption ""), description := some "" }

/-- The Open-Graph-path `Post.create` arguments, lines 1343-1349. -/
def ttOgCreateArgs (userId : Nat) (videoUrl : String)
    (thumb caption : String) : PostCreateArgs :=
  { user := userId, platform := "tiktok", url := videoUrl,
    thumbnailUrl := some thumb, caption := some caption }

/-- The fallback-logo `Post.create` arguments, lines 1373-1378. -/
def ttLogoCreateArgs (userId : Nat) (videoUrl : String) : PostCreateArgs :=
  { user := userId, platform := "tiktok", url := videoUrl,
    thumbnailUrl := some TIKTOK_LOGO }

/-- The TikWm primary path, lines 1155-1281: an axios failure, a response
without `data.data`, or a throwing `Post.create` all escape to the catch at
line 1282 (`Except.error`). -/
def ttPrimary (userId : Nat) (videoUrl : String)
    (tikwm : Except Unit (Option TikwmData))
    (upload : String → Except Unit String)
    (store : List PostDoc) (now : Nat) :
    Except Unit (TtResponse × List PostDoc) :=
  match tikwm with
  | .error _ => .error ()
  | .ok none => .error ()
  | .ok (some d) =>
    let thumbnailUrl := d.origin_cover.getD ""
    let cloudThumb := ttRehost thumbnailUrl upload
    let cloudUser := ttRehost (d.author_avatar.getD "") upload
    let args := ttTikwmCreateArgs userId videoUrl d cloudThumb cloudUser
    match insertPost store args now with
    | .ok st2 =>
      .ok ({ status := 200, thumbnailUrl := some (jsOr cloudThumb thumbnailUrl),
             extractionMethod := some "tikwm_api_simplified",
             created := some args }, st2)
    | .error _ => .error ()

/-- The Open Graph fallback, lines 1286-1360: `Except.error` models the
inner catch at line 1361 (fetch failure or throwing `Post.create`);
`Except.ok none` models the fall-through when the page has no `og:image`
(the `if (thumbnailUrl)` guard at line 1336 fails without raising). -/
def ttOgFallback (userId : Nat) (videoUrl : String)
    (ogFetch : Except Unit TtPage)
    (upload : String → Except Unit String)
    (store : List PostDoc) (now : Nat) :
    Except Unit (Option (TtResponse × List PostDoc)) :=
  match ogFetch with
  | .error _ => .error ()
  | .ok pg =>
    match jsTruthyOpt pg.ogImage with
    | none => .ok none
    | some thumbnailUrl =>
      let caption := (jsTruthyOpt pg.ogDescription).getD ""
      let cloudThumb := ttRehost thumbnailUrl upload
      let args := ttOgCreateArgs userId videoUrl (jsOr cloudThumb thumbnailUrl) caption
      match insertPost store args now with
      | .ok st2 =>
        .ok (some ({ status := 200,
                     thumbnailUrl := some (jsOr cloudThumb thumbnailUrl),
                     extractionMethod := some "opengraph",
                     created := some args }, st2))
      | .error _ => .error ()

/-- The TikTok import route, lines 1134-1398: validation, TikWm, Open Graph,
then the fallback-logo `Post.create` whose failure reaches the outer catch
and produces a 500. -/
def tiktokRoute (userId : Nat) (url? : Option String)
    (tikwm : Except Unit (Option TikwmData))
    (ogFetch : Except Unit TtPage)
    (upload : String → Except Unit String)
    (store : List PostDoc) (now : Nat) : TtResponse × List PostDoc :=
  match url? with
  | none => ({ status := 400 }, store)
  | some videoUrl =>
    if !jsIncludes videoUrl "tiktok.com" then ({ status := 400 }, store)
    else
      match ttPrimary userId videoUrl tikwm upload store now with
      | .ok r => r
      | .error _ =>
        let afterOg :=
          match ttOgFallback userId videoUrl ogFetch upload store now with
          | .ok (some r) => some r
          | _ => none
        match afterOg with
        | some r => r
        | none =>
          let args := ttLogoCreateArgs userId videoUrl
          match insertPost store args now with
          | .ok st2 =>
            ({ status := 200, thumbnailUrl := some TIKTOK_LOGO,
               extractionMethod := some "fallback_logo",
               created := some args }, st2)
          | .error _ => ({ status := 500 }, store)

end Shoplinkify

namespace Shoplinkify

/-!
## Image proxy (`src/routes/social.js` lines 23-76 and 2713-2851, and the
sibling `src/routes/auth.js` lines 83-133 and 2301-2430+)

Both routers define `GET /proxy/image` over a module-level
`imageCache : Map` with `CACHE_DURATION = 24h`. The social.js handler only
reads the cache (its success path deliberately skips `setCachedImage`,
lines 2777-2779); the auth.js handler additionally writes
`setCachedImage(url, url)` on success (line 2366).
-/

/-- One cache entry: the resolved image URL and the write timestamp. -/
structure CacheEntry where
  imageUrl : String
  timestamp : Nat
deriving Repr, DecidableEq

/-- The in-process `imageCache` map, keyed by requested URL. -/
abbrev ImageCache := List (String × CacheEntry)

/-- `CACHE_DURATION = 24 * 60 * 60 * 1000` (line 23). -/
def CACHE_DURATION : Nat := 24 * 60 * 60 * 1000

/-- `Map.get`. -/
def cacheGet (m : ImageCache) (k : String) : Option CacheEntry :=
  match m with
  | [] => none
  | (k0, v0) :: rest => if k0 == k then some v0 else cacheGet rest k

/-- `Map.set` (replace or append). -/
def cacheSet (m : ImageCache) (k : String) (v : CacheEntry) : ImageCache :=
  match m with
  | [] => [(k, v)]
  | (k0, v0) :: rest => if k0 == k then (k, v) :: rest else (k0, v0) :: cacheSet rest k v

/-- `getCachedImage` (social.js lines 63-69, auth.js 122-128): a hit younger
than `CACHE_DURATION` yields the stored URL. -/
def getCachedImage (m : ImageCache) (now : Nat) (url : String) : Option String :=
  match cacheGet m url with
  | some c => if now - c.timestamp < CACHE_DURATION then some c.imageUrl else none
  | none => none

/-- `setCachedImage` (social.js lines 71-76, auth.js 130-133). -/
def setCachedImage (m : ImageCache) (now : Nat) (url imageUrl : String) : ImageCache :=
  cacheSet m url { imageUrl := imageUrl, timestamp := now }

/-- Outcome of one upstream axios image fetch. -/
inductive UpstreamResult where
  | success
  | httpError (status : Nat)
  | netError
deriving Repr, DecidableEq

/-- Platform-keyed fallback image of the proxy catch blocks
(social.js lines 2831-2847, auth.js likewise). -/
def proxyFallbackImage (url : String) : String :=
  if jsIncludes url "instagram.com" then
    "https://www.instagram.com/static/images/ico/favicon-192.png/68d99ba29cc8.png"
  else if jsIncludes url "facebook.com" || jsIncludes url "fbcdn.net" then
    FB_LOGO
  else if jsIncludes url "tiktok.com" then
    TIKTOK_LOGO
  else
    "https://via.placeholder.com/300x300?text=Image+Not+Available"

/-- What one proxy request did: response action, cache state afterwards, and
how many upstream fetches were issued. -/
structure ProxyReply where
  status : Nat
  redirectTo : Option String := none
  cacheAfter : ImageCache
  upstreamFetches : Nat
deriving Repr, DecidableEq

/-- Shared catch ladder of both proxy handlers (social.js 2783-2850): a
403/401 on an `instagram.com` URL is retried once with mobile headers
(`retry`); a 404 upstream becomes a 404 response; anything else redirects to
the platform fallback image. `fetched` counts fetches already issued. -/
def proxyCatch (m : ImageCache) (url : String) (err : UpstreamResult)
    (retry : UpstreamResult) (fetched : Nat) : ProxyReply :=
  match err with
  | .success => { status := 200, cacheAfter := m, upstreamFetches := fetched }
  | .netError =>
    { status := 302, redirectTo := some (proxyFallbackImage url),
      cacheAfter := m, upstreamFetches := fetched }
  | .httpError s =>
    if (s == 403 || s == 401) && jsIncludes url "instagram.com" then
      match retry with
      | .success => { status := 200, cacheAfter := m, upstreamFetches := fetched + 1 }
      | _ =>
        { status := 302, redirectTo := some (proxyFallbackImage url),
          cacheAfter := m, upstreamFetches := fetched + 1 }
    else if s == 404 then
      { status := 404, cacheAfter := m, upstreamFetches := fetched }
    else
      { status := 302, redirectTo := some (proxyFallbackImage url),
        cacheAfter := m, upstreamFetches := fetched }

/-- The social.js `GET /proxy/image` handler (lines 2713-2851): cache lookup,
one upstream fetch, direct streaming on success — the success path does not
call `setCachedImage` (the comment at lines 2777-2779 says caching is
unnecessary because the response is streamed directly). -/
def socialProxyImage (m : ImageCache) (now : Nat) (url? : Option String)
    (fetchMain retry : UpstreamResult) : ProxyReply :=
  match url? with
  | none => { status := 400, cacheAfter := m, upstreamFetches := 0 }
  | some url =>
    match getCachedImage m now url with
    | some cached =>
      { status := 302, redirectTo := some cached, cacheAfter := m, upstreamFetches := 0 }
    | none =>
      match fetchMain with
      | .success => { status := 200, cacheAfter := m, upstreamFetches := 1 }
      | e => proxyCatch m url e retry 1

/-- The auth.js `GET /proxy/image` handler (lines 2301-2430+): identical to
the social.js handler except that the success path stores
`setCachedImage(url, url)` before streaming (line 2366). -/
def authProxyImage (m : ImageCache) (now : Nat) (url? : Option String)
    (fetchMain retry : UpstreamResult) : ProxyReply :=
  match url? with
  | none => { status := 400, cacheAfter := m, upstreamFetches := 0 }
  | some url =>
    match getCachedImage m now url with
    | some cached =>
      { status := 302, redirectTo := some cached, cacheAfter := m, upstreamFetches := 0 }
    | none =>
      match fetchMain with
      | .success =>
        { status := 200, cacheAfter := setCachedImage m now url url, upstreamFetches := 1 }
      | e => proxyCatch m url e retry 1

end Shoplinkify

namespace Shoplinkify

/-!
## Public feed (`src/routes/feed.js`, `router.get("/:userId")`) and click
analytics (`src/routes/social.js`, `GET /post/details` lines 181-295 and
`GET /clicks` lines 78-179; the Click schema is `models/click.js`).
-/

/-- `user.selectedPlatforms` as the feed route reads it. -/
structure SelectedPlatforms where
  instagram : Bool := false
  facebook : Bool := false
  youtube : Bool := false
  tiktok : Bool := false
deriving Repr, DecidableEq

/-- `user.feedSettings` as the feed route reads it. -/
structure FeedSettings where
  layout : Option String := none
  postsCount : Option String := none
deriving Repr, DecidableEq

/-- The user fields the feed route selects. -/
structure FeedUser where
  id : Nat
  selectedPlatforms : Option SelectedPlatforms := none
  feedSettings : Option FeedSettings := none
deriving Repr, DecidableEq

/-- Platform filter construction (feed route lines 23-27), in source order. -/
def feedPlatforms (u : FeedUser) : List String :=
  match u.selectedPlatforms with
  | none => []
  | some sp =>
    (if sp.instagram then ["instagram"] else []) ++
    (if sp.facebook then ["facebook"] else []) ++
    (if sp.youtube then ["youtube"] else []) ++
    (if sp.tiktok then ["tiktok"] else [])

/-- `user.feedSettings?.postsCount || "6"` (feed route line 29). -/
def postsCountStr (u : FeedUser) : String :=
  (u.feedSettings.bind (fun fs => jsTruthyOpt fs.postsCount)).getD "6"

/-- JS `parseInt` restricted to base-10 numerals: leading whitespace is
skipped, an optional `+` accepted, and the leading digit run parsed; `none`
models `NaN`. A leading `-` (a negative count, which the feed settings never
produce) is not modelled. -/
def parseIntJS (s : String) : Option Nat :=
  let l := s.toList.dropWhile (fun c => c == ' ' || c == '\t' || c == '\n' || c == '\r')
  match l with
  | '+' :: rest => parseDigits rest
  | '-' :: _ => none
  | _ => parseDigits l
where
  parseDigits (l : List Char) : Option Nat :=
    let ds := takeClass Char.isDigit l
    if ds.isEmpty then none
    else some (ds.foldl (fun n c => n * 10 + (c.toNat - '0'.toNat)) 0)

/-- Feed ordering: `sort({ addedAt: -1 })`, newest first. -/
def feedOrder (a b : PostDoc) : Prop := b.addedAt ≤ a.addedAt

instance : DecidableRel feedOrder := fun a b => Nat.decLe b.addedAt a.addedAt

instance : IsTotal PostDoc feedOrder := ⟨fun a b => Nat.le_total b.addedAt a.addedAt⟩

instance : IsTrans PostDoc feedOrder := ⟨fun _ _ _ h1 h2 => Nat.le_trans h2 h1⟩

/-- The `Post.find` filter of the feed route (lines 31-35): owned by the
user, platform among the enabled ones, and `selected: true`. -/
def eligibleFeedPosts (db : List PostDoc) (u : FeedUser) : List PostDoc :=
  db.filter (fun p => p.user == u.id && (feedPlatforms u).contains p.platform && p.selected)

/-- The feed query (lines 29-38): filter, sort by `addedAt` descending,
limit to `parseInt(postsCount)`. `none` models the unrepresentable
`limit(NaN)` case, which the enumerated settings values never reach. -/
def feedQueryPosts (db : List PostDoc) (u : FeedUser) : Option (List PostDoc) :=
  (parseIntJS (postsCountStr u)).map
    (fun n => (List.insertionSort feedOrder (eligibleFeedPosts db u)).take n)

/-- One formatted feed entry (lines 43-50). -/
structure FeedTuple where
  imageUrl : Option String
  url : String
  platform : String
deriving Repr, DecidableEq

/-- `posts.map(...)` of lines 43-50: `imageUrl = thumbnailUrl || imageUrl`. -/
def formatFeedPosts (posts : List PostDoc) : List FeedTuple :=
  posts.map (fun p =>
    { imageUrl := jsOrOpt p.thumbnailUrl p.imageUrl, url := p.url, platform := p.platform })

/-- Argument record of a `Click.create(...)` call: exactly the fields a call
site passes are set. -/
structure ClickCreateArgs where
  user : Nat
  post : Nat
  country : Option String := none
  platform : String
  device : Option String := none
  date : Option Nat := none
deriving Repr, DecidableEq

/-- A persisted Click document after the schema defaults (`models/click.js`):
`device` defaults to `"desktop"`, `date` to the creation time. -/
structure ClickDoc where
  user : Nat
  post : Nat
  country : Option String
  platform : String
  device : String
  date : Nat
deriving Repr, DecidableEq

/-- Apply the Click schema defaults. -/
def applyClickDefaults (a : ClickCreateArgs) (now : Nat) : ClickDoc :=
  { user := a.user, post := a.post, country := a.country, platform := a.platform,
    device := a.device.getD "desktop", date := a.date.getD now }

/-- The `Click.create` arguments of `GET /post/details` (social.js lines
276-281): `user`, `post`, `country`, `platform` — no `device`, no `date`. -/
def postDetailsClickArgs (userId postId : Nat) (country : Option String)
    (platform : String) : ClickCreateArgs :=
  { user := userId, post := postId, country := country, platform := platform }

/-- The device split of `GET /clicks` (social.js lines 127-129): a click
whose `device` is `"mobile"` counts as a phone click, anything else as a
desktop click. Returns `(desktopClicks, phoneClicks)`. -/
def deviceSplit (clicks : List ClickDoc) : Nat × Nat :=
  clicks.foldl
    (fun acc c => if c.device == "mobile" then (acc.1, acc.2 + 1) else (acc.1 + 1, acc.2))
    (0, 0)

/-- The `Post.create` arguments of the YouTube route (social.js lines
392-403; the auth.js variant at lines 451-462 passes the same fields). -/
def ytCreateArgs (userId : Nat)
    (normalizedUrl videoId thumbnailUrl title channelName channelImage description embedCode :
      String) : PostCreateArgs :=
  { user := userId, platform := "youtube", url := normalizedUrl,
    videoId := some videoId, thumbnailUrl := some thumbnailUrl,
    title := some title, channelName := some channelName,
    channelImage := some channelImage, description := some description,
    embedCode := some embedCode }

/-- The `Post.create` arguments of the auth.js Facebook route (lines
1097-1104). -/
def fbAuthCreateArgs (userId : Nat) (postUrl imageUrl : String) : PostCreateArgs :=
  { user := userId, platform := "facebook", url := postUrl,
    imageUrl := some imageUrl, title := some "", description := some "" }

end Shoplinkify

namespace Shoplinkify

/-!
## Concrete fixtures used by the claim theorems
-/

/-- A page whose initial meta pick is a profile picture while a non-profile
candidate sits in `twitter:image` (consulted only by the initial `||` chain,
not by the alternative-tag loop) and another in the `display_url` regex
(strategy 3, never reached once stage 1 returns). -/
def c1CexPage : InstaPage :=
  { ogImageUrl := some "https://instagram.com/profile_pic/abc.jpg",
    twitterImage := some "https://scontent.cdninstagram.com/v/photo123.jpg",
    displayUrlMatch := some "https://scontent.cdninstagram.com/v/display999.jpg" }

/-- A page whose initial meta pick is a profile picture and whose
`article:image` alternative tag is a clean content image. -/
def c1WitPage : InstaPage :=
  { ogImageUrl := some "https://instagram.com/profile_pic/a.jpg",
    articleImage := some "https://scontent.cdninstagram.com/clean.jpg" }

/-- A page carrying a JSON-LD image and an `srcset` candidate but nothing any
of the three implemented strategies reads. -/
def c2CexPage : InstaPage :=
  { jsonLdImage := some "https://scontent.cdninstagram.com/v/post1.jpg",
    srcsetCands := [{ url := "https://scontent.cdninstagram.com/v/p640.jpg", width := 640 }] }

/-- An entirely empty Instagram page: every strategy comes up empty. -/
def c2WitPage : InstaPage := {}

/-- Acceptable TikTok URL used by the C3 theorems. -/
def c3Url : String := "https://www.tiktok.com/@user/video/123"

/-- Acceptable Facebook post URL used by the C4 theorems. -/
def c4Url : String := "https://www.facebook.com/someuser/posts/456"

/-- Two distinct raw spellings of the same canonical Instagram post URL. -/
def c5Raw1 : String := "https://www.instagram.com/p/ABC123/"

/-- Second spelling: no `www.`, no trailing slash. -/
def c5Raw2 : String := "https://instagram.com/p/ABC123"

/-- Image-proxy URL used by the C7 theorems. -/
def c7Url : String := "https://scontent.cdninstagram.com/v/img.jpg"

/-- Ten eligible posts of user 7 with distinct `addedAt` stamps. -/
def c8Db : List PostDoc :=
  (List.range 10).map (fun t =>
    applyPostDefaults
      { user := 7, platform := "instagram", url := "u", imageUrl := some "i" } t)

/-- A user with Instagram enabled and `postsCount` set to `"3"`. -/
def c8User : FeedUser :=
  { id := 7, selectedPlatforms := some { instagram := true },
    feedSettings := some { postsCount := some "3" } }

end Shoplinkify

namespace Shoplinkify

/-!
## Shared lemmas
-/

/-- A successful `firstSome` scan exhibits a witnessing element. -/
theorem firstSome_eq_some {α β : Type} {l : List α} {f : α → Option β} {b : β}
    (h : firstSome l f = some b) : ∃ a, a ∈ l ∧ f a = some b := by
  induction l with
  | nil => simp [firstSome] at h
  | cons a rest ih =>
    rw [firstSome] at h
    cases hfa : f a with
    | some b2 =>
      rw [hfa] at h
      injection h with h
      exact ⟨a, List.mem_cons_self a rest, by rw [hfa, h]⟩
    | none =>
      rw [hfa] at h
      obtain ⟨x, hx, hfx⟩ := ih h
      exact ⟨x, List.mem_cons_of_mem a hx, hfx⟩

/-- The alternative-tag loop only ever returns a non-profile URL. -/
theorem igFindAltTag_profile_free (p : InstaPage) (v m : String)
    (h : igFindAltTag p = some (v, m)) : isLikelyProfilePic v = false := by
  obtain ⟨tc, _, hf⟩ := firstSome_eq_some h
  cases hjt : jsTruthyOpt tc.2 with
  | none => rw [hjt] at hf; exact absurd hf (by simp)
  | some c =>
    rw [hjt] at hf
    cases hp : isLikelyProfilePic c with
    | true => simp [hp] at hf
    | false =>
      simp only [hp, Bool.false_eq_true, if_false] at hf
      simp only [Option.some.injEq, Prod.mk.injEq] at hf
      rw [← hf.1]
      exact hp

/-- `Map.set` followed by `Map.get` of the same key. -/
theorem cacheGet_cacheSet_self (m : ImageCache) (k : String) (v : CacheEntry) :
    cacheGet (cacheSet m k v) k = some v := by
  induction m with
  | nil => simp [cacheSet, cacheGet]
  | cons kv rest ih =>
    obtain ⟨k0, v0⟩ := kv
    cases hk : k0 == k with
    | true => simp [cacheSet, hk, cacheGet]
    | false => simp [cacheSet, hk, cacheGet, ih]

/-- Folding the device counter over desktop-only clicks. -/
theorem deviceSplit_go (l : List ClickDoc) (acc : Nat × Nat)
    (h : ∀ c ∈ l, c.device = "desktop") :
    l.foldl
      (fun acc c => if c.device == "mobile" then (acc.1, acc.2 + 1) else (acc.1 + 1, acc.2))
      acc = (acc.1 + l.length, acc.2) := by
  induction l generalizing acc with
  | nil => simp
  | cons c rest ih =>
    obtain ⟨a, b⟩ := acc
    have hc : c.device = "desktop" := h c (List.mem_cons_self c rest)
    rw [List.foldl_cons]
    have hne : ("desktop" == "mobile") = false := rfl
    simp only [hc, hne, Bool.false_eq_true, if_false]
    rw [ih (a + 1, b) (fun x hx => h x (List.mem_cons_of_mem c hx))]
    show (a + 1 + rest.length, b) = (a + (c :: rest).length, b)
    simp only [List.length_cons, Prod.mk.injEq]
    exact ⟨by omega, trivial⟩

/-- All-desktop click lists split as pure desktop counts. -/
theorem deviceSplit_all_desktop (l : List ClickDoc)
    (h : ∀ c ∈ l, c.device = "desktop") : deviceSplit l = (l.length, 0) := by
  rw [deviceSplit, deviceSplit_go l (0, 0) h]
  simp

end Shoplinkify

namespace Shoplinkify

/-!
## Claim theorems
-/

/-- C1, counterexample: on `c1CexPage` the strategies hold two non-profile
candidates — `twitter:image` (read by the initial meta `||` chain) and the
`display_url` regex capture (strategy 3) — yet the cascade's final selection
is the `og:image:url` profile picture, because the alternative-tag loop
consults neither and stage 1 short-circuits the later strategies. -/
theorem instagram_profile_dominance_cex :
    instagramExtract c1CexPage =
      some ("https://instagram.com/profile_pic/abc.jpg", "og_image_profile")
    ∧ jsIncludes "https://instagram.com/profile_pic/abc.jpg" "/profile_pic/" = true
    ∧ c1CexPage.twitterImage = some "https://scontent.cdninstagram.com/v/photo123.jpg"
    ∧ isLikelyProfilePic "https://scontent.cdninstagram.com/v/photo123.jpg" = false
    ∧ igStage3 c1CexPage =
        some ("https://scontent.cdninstagram.com/v/display999.jpg", "display_url_regex")
    ∧ isLikelyProfilePic "https://scontent.cdninstagram.com/v/display999.jpg" = false :=
  ⟨rfl, rfl, rfl, rfl, rfl, rfl⟩

/-- C1, amended: the profile-dominance guarantee the code actually provides
is local to the meta stage — when the initial meta pick is profile-like and
the alternative content-tag loop (`article:image`, `og:image:url`,
`twitter:image:src`, `image`, `thumbnail`, `instagram:image`) finds a
non-profile candidate, that candidate is selected and it never matches
`/profile_pic/`; candidates visible only to other tags or later strategies
do not dominate the profile pick. -/
theorem instagram_profile_dominance_amended (p : InstaPage) (u v m : String)
    (h1 : igMetaInitial p = some u) (h2 : isLikelyProfilePic u = true)
    (h3 : igFindAltTag p = some (v, m)) :
    igStage1 p = some (v, m) ∧ jsIncludes v "/profile_pic/" = false := by
  constructor
  · rw [igStage1, h1]
    simp [h2, h3]
  · have hfree := igFindAltTag_profile_free p v m h3
    cases hjs : jsIncludes v "/profile_pic/" with
    | false => rfl
    | true =>
      exfalso
      rw [isLikelyProfilePic, hjs] at hfree
      simp at hfree

/-- C1, witness for the amended theorem at `c1WitPage`. -/
theorem instagram_profile_dominance_amended_witness :
    igStage1 c1WitPage =
      some ("https://scontent.cdninstagram.com/clean.jpg", "meta_tag_article_image")
    ∧ jsIncludes "https://scontent.cdninstagram.com/clean.jpg" "/profile_pic/" = false :=
  instagram_profile_dominance_amended c1WitPage
    "https://instagram.com/profile_pic/a.jpg"
    "https://scontent.cdninstagram.com/clean.jpg" "meta_tag_article_image"
    rfl rfl rfl

/-- C2, counterexample: `c2CexPage` carries a JSON-LD image and an `srcset`
candidate — the spec's strategies (4) and (3) would both succeed — yet the
route's cascade finds nothing and answers 404, because no srcset or JSON-LD
strategy exists in the social.js Instagram route. -/
theorem instagram_cascade_missing_strategies_cex :
    instagramExtract c2CexPage = none
    ∧ specJsonLdStrategy c2CexPage = some "https://scontent.cdninstagram.com/v/post1.jpg"
    ∧ specSrcsetStrategy c2CexPage = some "https://scontent.cdninstagram.com/v/p640.jpg" :=
  ⟨rfl, rfl, rfl⟩

/-- C2, amended: the cascade is exactly three strategies in order — (1) meta
tags, (2) `window._sharedData` JSON (`display_resources` by area, else
`display_url`), (3) the raw page-text regexes — and the 404 (`NoImageFound`)
response is produced precisely when all three are exhausted. -/
theorem instagram_cascade_order_amended (p : InstaPage) :
    igExtractCandidate p =
      ((igStage1 p).orElse (fun _ => (igStage2 p).orElse (fun _ => igStage3 p)))
    ∧ (instagramExtract p = none ↔
        igStage1 p = none ∧ igStage2 p = none ∧ igStage3 p = none) := by
  have hchain : igExtractCandidate p =
      ((igStage1 p).orElse (fun _ => (igStage2 p).orElse (fun _ => igStage3 p))) := by
    cases h1 : igStage1 p with
    | some r => simp [igExtractCandidate, h1, Option.orElse]
    | none =>
      cases h2 : igStage2 p with
      | some r => simp [igExtractCandidate, h1, h2, Option.orElse]
      | none => simp [igExtractCandidate, h1, h2, Option.orElse]
  refine ⟨hchain, ?_, ?_⟩
  · intro hn
    cases h1 : igStage1 p with
    | some r =>
      exfalso
      obtain ⟨u, mm⟩ := r
      rw [instagramExtract, igExtractCandidate, h1] at hn
      exact absurd hn (by simp)
    | none =>
      cases h2 : igStage2 p with
      | some r =>
        exfalso
        obtain ⟨u, mm⟩ := r
        rw [instagramExtract, igExtractCandidate, h1, h2] at hn
        exact absurd hn (by simp)
      | none =>
        cases h3 : igStage3 p with
        | some r =>
          exfalso
          obtain ⟨u, mm⟩ := r
          rw [instagramExtract, igExtractCandidate, h1, h2, h3] at hn
          exact absurd hn (by simp)
        | none => exact ⟨rfl, rfl, rfl⟩
  · rintro ⟨h1, h2, h3⟩
    rw [instagramExtract, igExtractCandidate, h1, h2, h3]

/-- C2, witness for the amended theorem: the empty page exhausts all three
strategies and yields the 404 outcome. -/
theorem instagram_cascade_order_amended_witness :
    instagramExtract c2WitPage = none :=
  (instagram_cascade_order_amended c2WitPage).2.mpr ⟨rfl, rfl, rfl⟩

end Shoplinkify

namespace Shoplinkify

/-- C3, counterexample: a valid TikTok URL whose TikWm call and Open Graph
fallback both fail imports fine once (200 with the logo placeholder), but an
identical second request hits the unique `(user, url)` index inside the
unguarded fallback `Post.create` and the route answers 500 — an error status
that is not input validation. -/
theorem tiktok_persist_failure_cex :
    (tiktokRoute 1 (some c3Url) (.error ()) (.error ()) (fun _ => .error ()) [] 2).1 =
      { status := 200, thumbnailUrl := some TIKTOK_LOGO,
        extractionMethod := some "fallback_logo",
        created := some (ttLogoCreateArgs 1 c3Url) }
    ∧ (tiktokRoute 1 (some c3Url) (.error ()) (.error ()) (fun _ => .error ())
        (tiktokRoute 1 (some c3Url) (.error ()) (.error ()) (fun _ => .error ()) [] 2).2 5) =
      ({ status := 500 },
       (tiktokRoute 1 (some c3Url) (.error ()) (.error ()) (fun _ => .error ()) [] 2).2)
    ∧ jsIncludes c3Url "tiktok.com" = true :=
  ⟨rfl, rfl, rfl⟩

/-- C3, amended: for a URL containing `tiktok.com`, when the TikWm call fails
(or returns no `data.data`) and the Open Graph fallback fails (or finds no
`og:image`), the route answers 200 carrying the static TikTok-logo
placeholder — provided the final `Post.create` succeeds; when that create
throws (for example on a duplicate import) the route answers 500 instead. -/
theorem tiktok_degraded_success_amended (userId : Nat) (url : String)
    (tikwm : Except Unit (Option TikwmData)) (og : Except Unit TtPage)
    (upload : String → Except Unit String) (store : List PostDoc) (now : Nat)
    (hurl : jsIncludes url "tiktok.com" = true)
    (htik : tikwm = .error () ∨ tikwm = .ok none)
    (hog : og = .error () ∨ ∃ pg, og = .ok pg ∧ jsTruthyOpt pg.ogImage = none) :
    (∀ st2, insertPost store (ttLogoCreateArgs userId url) now = .ok st2 →
      tiktokRoute userId (some url) tikwm og upload store now =
        ({ status := 200, thumbnailUrl := some TIKTOK_LOGO,
           extractionMethod := some "fallback_logo",
           created := some (ttLogoCreateArgs userId url) }, st2))
    ∧ (insertPost store (ttLogoCreateArgs userId url) now = .error () →
        tiktokRoute userId (some url) tikwm og upload store now =
          ({ status := 500 }, store)) := by
  have hprim : ttPrimary userId url tikwm upload store now = .error () := by
    rcases htik with h | h <;> rw [h] <;> rfl
  have hfb : ttOgFallback userId url og upload store now = .error ()
      ∨ ttOgFallback userId url og upload store now = .ok none := by
    rcases hog with h | ⟨pg, hpg, hnone⟩
    · left; rw [h]; rfl
    · right; rw [hpg, ttOgFallback, hnone]
  constructor
  · intro st2 hins
    rcases hfb with h | h <;>
      simp [tiktokRoute, hurl, hprim, h, hins]
  · intro hins
    rcases hfb with h | h <;>
      simp [tiktokRoute, hurl, hprim, h, hins]

/-- C3, witness for the amended theorem: the degraded import on an empty
store succeeds with the logo placeholder. -/
theorem tiktok_degraded_success_amended_witness :
    tiktokRoute 1 (some c3Url) (.error ()) (.error ()) (fun _ => .error ()) [] 2 =
      ({ status := 200, thumbnailUrl := some TIKTOK_LOGO,
         extractionMethod := some "fallback_logo",
         created := some (ttLogoCreateArgs 1 c3Url) },
       [applyPostDefaults (ttLogoCreateArgs 1 c3Url) 2]) :=
  (tiktok_degraded_success_amended 1 c3Url (.error ()) (.error ())
      (fun _ => .error ()) [] 2 rfl (Or.inl rfl) (Or.inl rfl)).1
    [applyPostDefaults (ttLogoCreateArgs 1 c3Url) 2] rfl

/-- C4, counterexample: on an accepted `posts/` URL whose page fetch succeeds
but yields a page where every extraction strategy comes up empty, the route
answers 404 and persists nothing — it does not degrade to the fallback-logo
success the claim describes. -/
theorem facebook_no_image_404_cex :
    facebookRoute 1 (some c4Url) (.ok {}) (fun _ => .error ()) (fun _ => .error ()) [] 9 =
      ({ status := 404 }, [])
    ∧ fbUrlValid c4Url = true
    ∧ fbCascade (jsIncludes c4Url "/share/v/") {} = none :=
  ⟨rfl, rfl, rfl⟩

/-- C4, amended: the fallback-logo success applies when the fetch (or any
step of the inner try block) throws — then, provided the fallback
`Post.create` succeeds, the route answers 200 with a persisted logo post;
when the fetch succeeds and the cascade merely finds no image, the route
answers a hard 404 without persisting anything. -/
theorem facebook_fallback_amended (userId : Nat) (url : String)
    (fetch : Except Unit FbPage) (dl : String → Except Unit Nat)
    (up : String → Except Unit String) (store : List PostDoc) (now : Nat)
    (hv : fbUrlValid url = true) :
    (∀ pg, fetch = .ok pg → fbCascade (jsIncludes url "/share/v/") pg = none →
      facebookRoute userId (some url) fetch dl up store now = ({ status := 404 }, store))
    ∧ (fetch = .error () →
        ∀ st2, insertPost store (fbFallbackCreateArgs userId url) now = .ok st2 →
        facebookRoute userId (some url) fetch dl up store now =
          ({ status := 200, imageUrl := some FB_LOGO,
             extractionMethod := some "fallback_logo",
             created := some (fbFallbackCreateArgs userId url) }, st2)) := by
  constructor
  · intro pg hf hc
    simp [facebookRoute, hv, fbInner, hf, hc]
  · intro hf st2 hins
    simp [facebookRoute, hv, fbInner, hf, hins]

/-- C4, witness for the amended theorem at `c4Url`: both the 404 branch and
the fallback-logo branch, at concrete oracles. -/
theorem facebook_fallback_amended_witness :
    facebookRoute 1 (some c4Url) (.ok {}) (fun _ => .error ()) (fun _ => .error ()) [] 9 =
      ({ status := 404 }, [])
    ∧ facebookRoute 1 (some c4Url) (.error ()) (fun _ => .error ()) (fun _ => .error ()) [] 9 =
      ({ status := 200, imageUrl := some FB_LOGO,
         extractionMethod := some "fallback_logo",
         created := some (fbFallbackCreateArgs 1 c4Url) },
       [applyPostDefaults (fbFallbackCreateArgs 1 c4Url) 9]) :=
  ⟨(facebook_fallback_amended 1 c4Url (.ok {}) (fun _ => .error ()) (fun _ => .error ()) [] 9
      rfl).1 {} rfl rfl,
   (facebook_fallback_amended 1 c4Url (.error ()) (fun _ => .error ()) (fun _ => .error ()) [] 9
      rfl).2 rfl [applyPostDefaults (fbFallbackCreateArgs 1 c4Url) 9] rfl⟩

end Shoplinkify

namespace Shoplinkify

/-- C5, counterexample: `c5Raw1` and `c5Raw2` are distinct raw spellings of
the same canonical post URL, both accepted by the route's validation; since
the Instagram route persists `url: postUrl` (the raw string) and the unique
index covers `(user, url)`, both inserts succeed and the store ends up with
two posts of the same owner and the same canonical URL. -/
theorem post_uniqueness_canonical_cex :
    igCanonicalUrl c5Raw1 none = igCanonicalUrl c5Raw2 none
    ∧ c5Raw1 ≠ c5Raw2
    ∧ ((insertPost [] (igCreateArgs 1 c5Raw1 "https://cdn.example/img1.jpg" none) 3).bind
        (fun st1 => insertPost st1 (igCreateArgs 1 c5Raw2 "https://cdn.example/img2.jpg" none) 4)).map
        (fun st2 => (st2.length, st2.map (fun p => (p.user, igCanonicalUrl p.url none)))) =
      .ok (2, [(1, "https://www.instagram.com/p/ABC123/"),
               (1, "https://www.instagram.com/p/ABC123/")])
    ∧ igUrlValid c5Raw1 = true ∧ igUrlValid c5Raw2 = true :=
  ⟨rfl, by decide, rfl, rfl, rfl⟩

/-- C5, amended: the uniqueness the data layer enforces is on
`(owner, raw stored url)` — re-importing the byte-identical raw URL fails
with a duplicate-conflict error and creates no record — while the Instagram
route stores the raw request URL, so distinct raw spellings of one canonical
URL are not deduplicated. -/
theorem post_uniqueness_raw_url_amended :
    (∀ (store : List PostDoc) (a : PostCreateArgs) (now : Nat) (p : PostDoc),
      p ∈ store → p.user = a.user → p.url = a.url →
      insertPost store a now = .error ())
    ∧ (∀ (userId : Nat) (postUrl imageUrl : String) (ec : Option String),
        (igCreateArgs userId postUrl imageUrl ec).url = postUrl) := by
  constructor
  · intro store a now p hmem hu hurl
    rw [insertPost]
    have hany : store.any (fun q => q.user == a.user && q.url == a.url) = true :=
      List.any_eq_true.mpr ⟨p, hmem, by simp [hu, hurl]⟩
    simp [hany]
  · intro userId postUrl imageUrl ec
    rfl

/-- C5, witness for the amended theorem: re-inserting the identical raw URL
for the same owner is rejected. -/
theorem post_uniqueness_raw_url_amended_witness :
    insertPost [applyPostDefaults (igCreateArgs 1 c5Raw1 "i" none) 3]
      (igCreateArgs 1 c5Raw1 "j" none) 4 = .error () :=
  post_uniqueness_raw_url_amended.1
    [applyPostDefaults (igCreateArgs 1 c5Raw1 "i" none) 3]
    (igCreateArgs 1 c5Raw1 "j" none) 4
    (applyPostDefaults (igCreateArgs 1 c5Raw1 "i" none) 3)
    (List.mem_cons_self _ _) rfl rfl

/-- C6: the three recognized input forms — `watch?v=`, `youtu.be/`, and an
iframe embed whose `src` points at the video — all normalize to `ABC123`,
and every input from which no (nonempty) video id is extractable is answered
with a 400, as is a missing `url`. -/
theorem youtube_id_extraction :
    ytExtractVideoId "https://www.youtube.com/watch?v=ABC123" = some "ABC123"
    ∧ ytExtractVideoId "https://youtu.be/ABC123" = some "ABC123"
    ∧ ytExtractVideoId "<iframe width=\"560\" height=\"315\" src=\"https://www.youtube.com/embed/ABC123\" frameborder=\"0\" allowfullscreen></iframe>" = some "ABC123"
    ∧ (∀ url, (ytExtractVideoId url = none ∨ ytExtractVideoId url = some "") →
        ytRouteEarly (some url) = .error 400)
    ∧ ytRouteEarly none = .error 400 := by
  refine ⟨rfl, rfl, rfl, ?_, rfl⟩
  intro url h
  rcases h with h | h
  · simp [ytRouteEarly, h]
  · simp [ytRouteEarly, h]

/-- C6, witness: a URL in none of the recognized forms is answered 400. -/
theorem youtube_id_extraction_witness :
    ytRouteEarly (some "https://vimeo.com/12345") = .error 400 :=
  youtube_id_extraction.2.2.2.1 "https://vimeo.com/12345" (Or.inl rfl)

/-- C7, counterexample: the social.js proxy never writes the cache — after a
successful first request the cache is still empty, and an identical request
1000 ms later performs a second upstream fetch instead of being answered
from the cache. -/
theorem proxy_cache_unpopulated_cex :
    socialProxyImage [] 0 (some c7Url) .success .success =
      { status := 200, redirectTo := none, cacheAfter := [], upstreamFetches := 1 }
    ∧ socialProxyImage
        (socialProxyImage [] 0 (some c7Url) .success .success).cacheAfter 1000
        (some c7Url) .success .success =
      { status := 200, redirectTo := none, cacheAfter := [], upstreamFetches := 1 } :=
  ⟨rfl, rfl⟩

/-- C7, amended: the claimed behaviour holds for the auth.js copy of
`GET /proxy/image`, which stores `setCachedImage(url, url)` on success: a
second same-URL request within 24 hours issues no upstream fetch and is
answered with a redirect to the cached resolution. -/
theorem proxy_cache_auth_router_amended (m : ImageCache) (now1 now2 : Nat) (url : String)
    (r1retry r2main r2retry : UpstreamResult)
    (h1 : getCachedImage m now1 url = none)
    (h2 : now2 - now1 < CACHE_DURATION) :
    (authProxyImage m now1 (some url) .success r1retry).upstreamFetches = 1
    ∧ authProxyImage (authProxyImage m now1 (some url) .success r1retry).cacheAfter
        now2 (some url) r2main r2retry =
      { status := 302, redirectTo := some url,
        cacheAfter := (authProxyImage m now1 (some url) .success r1retry).cacheAfter,
        upstreamFetches := 0 } := by
  have hr1 : authProxyImage m now1 (some url) .success r1retry =
      { status := 200, redirectTo := none,
        cacheAfter := setCachedImage m now1 url url, upstreamFetches := 1 } := by
    simp [authProxyImage, h1]
  rw [hr1]
  have hhit : getCachedImage (setCachedImage m now1 url url) now2 url = some url := by
    rw [getCachedImage, setCachedImage, cacheGet_cacheSet_self]
    simp [h2]
  exact ⟨rfl, by simp [authProxyImage, hhit]⟩

/-- C7, witness for the amended theorem at concrete times 0 and 1000 ms. -/
theorem proxy_cache_auth_router_amended_witness :
    (authProxyImage [] 0 (some c7Url) .success .success).upstreamFetches = 1
    ∧ authProxyImage (authProxyImage [] 0 (some c7Url) .success .success).cacheAfter
        1000 (some c7Url) .netError .netError =
      { status := 302, redirectTo := some c7Url,
        cacheAfter := (authProxyImage [] 0 (some c7Url) .success .success).cacheAfter,
        upstreamFetches := 0 } :=
  proxy_cache_auth_router_amended [] 0 1000 c7Url .success .netError .netError rfl (by decide)

/-- C8: with `postsCount = "3"` and ten eligible (owned, platform-enabled,
`selected`) posts, the feed query returns exactly three posts, ordered by
`addedAt` descending, all of them selected, and the formatted response
carries exactly those three tuples. -/
theorem feed_limit_and_order (db : List PostDoc) (u : FeedUser)
    (h1 : postsCountStr u = "3") (h2 : (eligibleFeedPosts db u).length = 10) :
    ∃ l, feedQueryPosts db u = some l ∧ l.length = 3 ∧ l.Sorted feedOrder ∧
      (∀ p ∈ l, p.selected = true) ∧ (formatFeedPosts l).length = 3 := by
  refine ⟨(List.insertionSort feedOrder (eligibleFeedPosts db u)).take 3, ?_, ?_, ?_, ?_, ?_⟩
  · rw [feedQueryPosts, h1]
    rfl
  · rw [List.length_take, List.length_insertionSort, h2]
    decide
  · exact (List.sorted_insertionSort feedOrder (eligibleFeedPosts db u)).sublist
      (List.take_sublist 3 _)
  · intro p hp
    have hmem : p ∈ List.insertionSort feedOrder (eligibleFeedPosts db u) :=
      (List.take_sublist 3 _).mem hp
    have hmem2 : p ∈ eligibleFeedPosts db u :=
      (List.perm_insertionSort feedOrder (eligibleFeedPosts db u)).mem_iff.mp hmem
    have hcond := List.of_mem_filter hmem2
    simp only [Bool.and_eq_true] at hcond
    exact hcond.2
  · rw [formatFeedPosts, List.length_map, List.length_take, List.length_insertionSort, h2]
    decide

/-- C8, witness at the concrete ten-post store `c8Db` and user `c8User`. -/
theorem feed_limit_and_order_witness :
    ∃ l, feedQueryPosts c8Db c8User = some l ∧ l.length = 3 ∧ l.Sorted feedOrder ∧
      (∀ p ∈ l, p.selected = true) ∧ (formatFeedPosts l).length = 3 :=
  feed_limit_and_order c8Db c8User rfl rfl

/-- C9: none of the `Post.create` call sites of the import endpoints (both
router copies: YouTube, Instagram, Facebook main and fallback, TikTok TikWm,
Open Graph and logo paths) passes `selected`, so every persisted import gets
the schema default `selected = true` and is immediately feed-eligible. -/
theorem imports_selected_default_true :
    (∀ (userId now : Nat) (nu vid th ti ch chi de em : String),
      (applyPostDefaults (ytCreateArgs userId nu vid th ti ch chi de em) now).selected = true)
    ∧ (∀ (userId now : Nat) (postUrl imageUrl : String) (ec : Option String),
      (applyPostDefaults (igCreateArgs userId postUrl imageUrl ec) now).selected = true)
    ∧ (∀ (userId now : Nat) (postUrl finalImageUrl : String) (pg : FbPage),
      (applyPostDefaults (fbMainCreateArgs userId postUrl finalImageUrl pg) now).selected = true)
    ∧ (∀ (userId now : Nat) (postUrl : String),
      (applyPostDefaults (fbFallbackCreateArgs userId postUrl) now).selected = true)
    ∧ (∀ (userId now : Nat) (postUrl imageUrl : String),
      (applyPostDefaults (fbAuthCreateArgs userId postUrl imageUrl) now).selected = true)
    ∧ (∀ (userId now : Nat) (videoUrl : String) (d : TikwmData) (ct cu : String),
      (applyPostDefaults (ttTikwmCreateArgs userId videoUrl d ct cu) now).selected = true)
    ∧ (∀ (userId now : Nat) (videoUrl thumb caption : String),
      (applyPostDefaults (ttOgCreateArgs userId videoUrl thumb caption) now).selected = true)
    ∧ (∀ (userId now : Nat) (videoUrl : String),
      (applyPostDefaults (ttLogoCreateArgs userId videoUrl) now).selected = true) := by
  refine ⟨?_, ?_, ?_, ?_, ?_, ?_, ?_, ?_⟩ <;> intros <;> rfl

/-- C10: the `GET /post/details` click record carries no `device`, so the
schema default `"desktop"` is stored, and the analytics device split counts
every such sequence of clicks entirely as desktop clicks. -/
theorem post_details_clicks_counted_desktop :
    (∀ (userId postId : Nat) (country : Option String) (platform : String) (now : Nat),
      (applyClickDefaults (postDetailsClickArgs userId postId country platform) now).device =
        "desktop")
    ∧ (∀ reqs : List (Nat × Nat × Option String × String × Nat),
        deviceSplit (reqs.map (fun r =>
          applyClickDefaults (postDetailsClickArgs r.1 r.2.1 r.2.2.1 r.2.2.2.1) r.2.2.2.2)) =
          (reqs.length, 0)) := by
  constructor
  · intros
    rfl
  · intro reqs
    have h : ∀ c ∈ reqs.map (fun r =>
        applyClickDefaults (postDetailsClickArgs r.1 r.2.1 r.2.2.1 r.2.2.2.1) r.2.2.2.2),
        c.device = "desktop" := by
      intro c hc
      obtain ⟨r, _, rfl⟩ := List.mem_map.mp hc
      rfl
    rw [deviceSplit_all_desktop _ h, List.length_map]

end Shoplinkify
